import Mathlib

/-!
Verification of the `svcs.django` adapter (`src/svcs/django.py`).

The file under verification is framework glue binding the `svcs`
dependency-injection core (`Registry`, `Container`, imported from
`svcs._core`, which is not part of the reviewed sources) to Django's
request lifecycle.  We shallowly embed the adapter's functions over an
explicit-state model:

* Python exceptions become an `Except PyError` result;
* mutation of the request / container / app-config objects becomes
  functional update, with the updated object returned;
* the external `Registry` / `Container` collaborators, absent from the
  sources, are modelled from the spec's glossary (an event log of
  registrations, and a registry plus an instantiation cache).
-/

namespace Svcs

/-- Python exceptions raised (directly or by attribute access) in the
adapter's code paths. -/
inductive PyError where
  | attributeError
  | valueError
  | typeError
  | lookupError
  | serviceNotFoundError
deriving DecidableEq, Repr

/-- The keyword arguments that `Registry.register_factory` receives,
bundled.  Service types, factories, pings and close hooks are opaque to
the adapter, so they are modelled as `Nat` codes (`Option Nat` where the
Python default is `None`). -/
structure RegisterArgs where
  svc_type : Nat
  factory : Nat
  enter : Bool
  ping : Option Nat
  on_registry_close : Option Nat
deriving DecidableEq, Repr

/-- Modelled from the spec: the external `Registry` "holding
service-type-to-factory bindings" records each registration call it
receives; an event is one such call with its arguments. -/
inductive RegistryEvent where
  | factoryReg (args : RegisterArgs)
  | valueReg (svc_type : Nat) (value : Nat) (enter : Bool)
      (ping : Option Nat) (on_registry_close : Option Nat)
deriving DecidableEq, Repr

/-- Modelled from the spec: the external `Registry`, as the chronological
log of registrations made on it. -/
structure Registry where
  events : List RegistryEvent
deriving DecidableEq, Repr

/-- `Registry()`: a fresh registry with no bindings. -/
def Registry.new : Registry := ⟨[]⟩

/-- Modelled from the spec: `Registry.register_factory` binds *svc_type*
to *factory*; in the event-log model it appends the call's arguments. -/
def Registry.register_factory (r : Registry) (svc_type factory : Nat)
    (enter : Bool) (ping on_registry_close : Option Nat) : Registry :=
  ⟨r.events ++ [.factoryReg ⟨svc_type, factory, enter, ping, on_registry_close⟩]⟩

/-- Modelled from the spec: `Registry.register_value` binds *svc_type*
to a constant *value*; in the event-log model it appends the call's
arguments. -/
def Registry.register_value (r : Registry) (svc_type value : Nat)
    (enter : Bool) (ping on_registry_close : Option Nat) : Registry :=
  ⟨r.events ++ [.valueReg svc_type value enter ping on_registry_close]⟩

/-- The value an event binds for a given service type, if any. -/
def RegistryEvent.binds (e : RegistryEvent) (t : Nat) : Option Nat :=
  match e with
  | .factoryReg a => if a.svc_type = t then some a.factory else none
  | .valueReg s v _ _ _ => if s = t then some v else none

/-- Modelled from the spec: look up the binding for a service type; the
most recent registration wins (Python dict assignment semantics). -/
def Registry.lookup (r : Registry) (t : Nat) : Option Nat :=
  r.events.reverse.findSome? (fun e => e.binds t)

/-- Modelled from the spec: the external `Container` "lazily instantiates
and caches services for the lifetime of one request"; it holds the
registry it draws factories from and its instantiation cache.
Instantiation itself is opaque to the adapter and is modelled as yielding
the bound code. -/
structure Container where
  registry : Registry
  cache : List (Nat × Nat)
deriving DecidableEq, Repr

/-- `svcs.Container(registry)`: a container over *registry* with an
empty instantiation cache. -/
def Container.new (reg : Registry) : Container := ⟨reg, []⟩

/-- Modelled from the spec (`svcs.Container.close()`): resets the
instantiation cache. -/
def Container.close (c : Container) : Container := { c with cache := [] }

/-- Modelled from the spec: fetch one service: serve it from the cache,
else instantiate it from the registry's binding and cache it, else fail. -/
def Container.get1 (c : Container) (t : Nat) : Except PyError (Nat × Container) :=
  match c.cache.lookup t with
  | some v => .ok (v, c)
  | none =>
    match c.registry.lookup t with
    | some v => .ok (v, { c with cache := c.cache ++ [(t, v)] })
    | none => .error .serviceNotFoundError

/-- Modelled from the spec: `Container.get(*svc_types)` fetches each
requested service in order, threading the cache. -/
def Container.get : Container → List Nat → Except PyError (List Nat × Container)
  | c, [] => .ok ([], c)
  | c, t :: ts =>
    match c.get1 t with
    | .error e => .error e
    | .ok (v, c') =>
      match Container.get c' ts with
      | .error e => .error e
      | .ok (vs, c'') => .ok (v :: vs, c'')

/-- The Django request object, as the adapter sees it: the attribute
stashed under `_KEY_CONTAINER` (absent when never set, when `getattr`
raises `AttributeError`), and an opaque payload standing for every other
attribute of the request. -/
structure HttpRequest where
  svcs_container : Option Container
  payload : Nat
deriving DecidableEq, Repr

/-- `svcs_from(request)`: `getattr(request, _KEY_CONTAINER)` — a plain
attribute read off the request. -/
def svcs_from (request : HttpRequest) : Except PyError Container :=
  match request.svcs_container with
  | some c => .ok c
  | none => .error .attributeError

/-- An app-config object with the mixin's `registry` attribute
(`Registry | None`, default `None`), plus an opaque payload standing for
the rest of the `AppConfig`. -/
structure DjangoSvcsAppConfigMixin where
  registry : Option Registry
  payload : Nat
deriving DecidableEq, Repr

/-- `get_registry(app)`: `if not app.registry: raise ValueError;
return app.registry`.  A set `Registry` object is truthy (the spec reads
the check as "fail if unset"), so only `None` takes the error branch. -/
def get_registry (app : DjangoSvcsAppConfigMixin) : Except PyError Registry :=
  match app.registry with
  | none => .error .valueError
  | some r => .ok r

/-- `DjangoSvcsAppConfigMixin.ready()`: installs a fresh `Registry` when
none is set; `ready` may run more than once, and a set registry is
truthy, so later runs leave it alone. -/
def DjangoSvcsAppConfigMixin.ready (app : DjangoSvcsAppConfigMixin) :
    DjangoSvcsAppConfigMixin :=
  match app.registry with
  | none => { app with registry := some Registry.new }
  | some _ => app

/-- `register_factory(config, svc_type, factory, *, enter=True,
ping=None, on_registry_close=None)`: forwards to
`config.registry.register_factory`.  When `config.registry` is `None`
the attribute access on `None` raises `AttributeError`. -/
def register_factory (config : DjangoSvcsAppConfigMixin)
    (svc_type factory : Nat) (enter : Bool) (ping on_registry_close : Option Nat) :
    Except PyError DjangoSvcsAppConfigMixin :=
  match config.registry with
  | none => .error .attributeError
  | some reg =>
    .ok { config with
          registry := some (reg.register_factory svc_type factory enter ping on_registry_close) }

/-- `register_factory(config, svc_type, factory)` with every keyword
left at its default (`enter=True, ping=None, on_registry_close=None`). -/
def register_factory_defaults (config : DjangoSvcsAppConfigMixin)
    (svc_type factory : Nat) : Except PyError DjangoSvcsAppConfigMixin :=
  register_factory config svc_type factory true none none

/-- `register_value(config, svc_type, value, *, enter=False, ping=None,
on_registry_close=None)`: forwards to `config.registry.register_value`. -/
def register_value (config : DjangoSvcsAppConfigMixin)
    (svc_type value : Nat) (enter : Bool) (ping on_registry_close : Option Nat) :
    Except PyError DjangoSvcsAppConfigMixin :=
  match config.registry with
  | none => .error .attributeError
  | some reg =>
    .ok { config with
          registry := some (reg.register_value svc_type value enter ping on_registry_close) }

/-- `register_value(config, svc_type, value)` with every keyword left at
its default (`enter=False, ping=None, on_registry_close=None`). -/
def register_value_defaults (config : DjangoSvcsAppConfigMixin)
    (svc_type value : Nat) : Except PyError DjangoSvcsAppConfigMixin :=
  register_value config svc_type value false none none

/-- `overwrite_factory(request, svc_type, factory, *, enter=True,
ping=None, on_registry_close=None)`: obtains the container stashed on
the request, registers the factory on that container's registry, then
closes the container (resetting its instantiation cache).  Mutation of
the stashed container is modelled by returning the updated request. -/
def overwrite_factory (request : HttpRequest) (svc_type factory : Nat)
    (enter : Bool) (ping on_registry_close : Option Nat) :
    Except PyError HttpRequest :=
  match svcs_from request with
  | .error e => .error e
  | .ok container =>
    .ok { request with
          svcs_container := some
            (Container.close
              { container with
                registry := container.registry.register_factory
                  svc_type factory enter ping on_registry_close }) }

/-- An app config as Django's app registry stores it: either an instance
of `DjangoSvcsAppConfigMixin`, or some other `AppConfig` (opaque). -/
inductive DjangoAppConfig where
  | mixin (app : DjangoSvcsAppConfigMixin)
  | plain (payload : Nat)
deriving DecidableEq, Repr

/-- The state of `django.apps.apps`: app configs keyed by label. -/
structure AppsEnv where
  configs : List (String × DjangoAppConfig)
deriving DecidableEq, Repr

/-- `apps.get_app_config(label)`: the config installed under *label*;
Django raises `LookupError` when there is none. -/
def AppsEnv.get_app_config (env : AppsEnv) (label : String) :
    Except PyError DjangoAppConfig :=
  match env.configs.lookup label with
  | some cfg => .ok cfg
  | none => .error .lookupError

/-- Python truthiness of an `AppConfig` object: `AppConfig` defines
neither `__bool__` nor `__len__`, so every instance is truthy (the
`if not app` branch in `_get_registry` is dead code). -/
def DjangoAppConfig.truthy : DjangoAppConfig → Bool := fun _ => true

/-- `SvcsMiddleware._get_registry()`: resolves the app config under the
label `"django"`, checks `if not app: raise ValueError(app)`, then
`isinstance(app, DjangoSvcsAppConfigMixin)` (`TypeError` otherwise), and
returns `get_registry(app)`. -/
def SvcsMiddleware._get_registry (env : AppsEnv) : Except PyError Registry :=
  match env.get_app_config "django" with
  | .error e => .error e
  | .ok app =>
    if ¬ app.truthy then .error .valueError
    else
      match app with
      | .plain _ => .error .typeError
      | .mixin a => get_registry a

/-- `SvcsMiddleware.__call__(request)`: builds
`svcs.Container(self._get_registry())`, stashes it on the request under
`_KEY_CONTAINER`, and returns `self.get_response(request)`.  The next
handler `get_response` is the middleware's constructor argument. -/
def SvcsMiddleware.call {α : Type} (env : AppsEnv)
    (get_response : HttpRequest → α) (request : HttpRequest) :
    Except PyError α :=
  match SvcsMiddleware._get_registry env with
  | .error e => .error e
  | .ok reg =>
    .ok (get_response { request with svcs_container := some (Container.new reg) })

/-- `get(request, *svc_types)`: `svcs_from(request).get(*svc_types)`.
The container's cache mutation is modelled by returning the updated
request alongside the fetched services. -/
def get (request : HttpRequest) (svc_types : List Nat) :
    Except PyError (List Nat × HttpRequest) :=
  match svcs_from request with
  | .error e => .error e
  | .ok c =>
    match c.get svc_types with
    | .error e => .error e
    | .ok (vs, c') => .ok (vs, { request with svcs_container := some c' })

/-! ### Reference model for registry object identity

Python variables hold references: the middleware stashes
`svcs.Container(self._get_registry())`, and `_get_registry` returns
`app.registry` itself, so the stashed container's registry and the app
config's `registry` attribute are the same mutable `Registry` object.
The definitions below model that sharing explicitly: registries live in
a heap keyed by object identity, and containers and app configs hold
references into it. -/

/-- Find the registry object with identity *rid* in a heap. -/
def heapFind : List (Nat × Registry) → Nat → Option Registry
  | [], _ => none
  | (k, v) :: tl, rid => if k = rid then some v else heapFind tl rid

/-- Mutate the registry object with identity *rid* in place. -/
def heapSet : List (Nat × Registry) → Nat → Registry → List (Nat × Registry)
  | [], _, _ => []
  | (k, v) :: tl, rid, r =>
    if k = rid then (rid, r) :: heapSet tl rid r else (k, v) :: heapSet tl rid r

/-- The live `Registry` objects, keyed by object identity. -/
structure RegistryHeap where
  cells : List (Nat × Registry)
deriving DecidableEq, Repr

/-- Dereference a registry identity. -/
def RegistryHeap.lookup (heap : RegistryHeap) (rid : Nat) : Option Registry :=
  heapFind heap.cells rid

/-- Mutate the registry object with identity *rid*. -/
def RegistryHeap.update (heap : RegistryHeap) (rid : Nat) (r : Registry) :
    RegistryHeap :=
  ⟨heapSet heap.cells rid r⟩

/-- A container in the reference model: it holds a reference to the
`Registry` object it was constructed from, plus its own cache. -/
structure ContainerRef where
  registry_ref : Nat
  cache : List (Nat × Nat)
deriving DecidableEq, Repr

/-- A request in the reference model. -/
structure HttpRequestRef where
  svcs_container : Option ContainerRef
  payload : Nat
deriving DecidableEq, Repr

/-- An app config in the reference model: its `registry` attribute is a
reference to a registry object (`None` when unset). -/
structure AppConfigRef where
  registry_ref : Option Nat
  payload : Nat
deriving DecidableEq, Repr

/-- The middleware's stash step in the reference model, for the resolved
mixin config: `svcs.Container(self._get_registry())` receives
`app.registry` itself (`_get_registry` raises `ValueError` when it is
unset), so the stashed container references the very registry object the
app config's `registry` attribute names. -/
def middleware_stashRef (app : AppConfigRef) (request : HttpRequestRef) :
    Except PyError HttpRequestRef :=
  match app.registry_ref with
  | none => .error .valueError
  | some rid => .ok { request with svcs_container := some ⟨rid, []⟩ }

/-- `overwrite_factory` in the reference model: registers the factory on
the registry object the stashed container references (mutating that
shared object in the heap) and closes the container. -/
def overwrite_factoryRef (heap : RegistryHeap) (request : HttpRequestRef)
    (svc_type factory : Nat) (enter : Bool) (ping on_registry_close : Option Nat) :
    Except PyError (RegistryHeap × HttpRequestRef) :=
  match request.svcs_container with
  | none => .error .attributeError
  | some container =>
    match heap.lookup container.registry_ref with
    | none => .error .attributeError
    | some reg =>
      .ok (heap.update container.registry_ref
             (reg.register_factory svc_type factory enter ping on_registry_close),
           { request with svcs_container := some { container with cache := [] } })


/-! ## Theorems -/

/-- C1: For every request processed by `SvcsMiddleware.__call__`, the
middleware constructs a new `Container` from the resolved registry,
stores it on the request under the container key, and returns exactly
the result of calling the next handler (`get_response`) on that
request. -/
theorem middleware_call_forwards {α : Type} (env : AppsEnv) (reg : Registry)
    (get_response : HttpRequest → α) (request : HttpRequest)
    (h : SvcsMiddleware._get_registry env = .ok reg) :
    SvcsMiddleware.call env get_response request =
      .ok (get_response
        { request with svcs_container := some (Container.new reg) }) := by
  simp [SvcsMiddleware.call, h]

theorem middleware_call_forwards_witness :
    SvcsMiddleware.call ⟨[("django", .mixin ⟨some Registry.new, 5⟩)]⟩
        (fun r => r.payload) ⟨none, 7⟩ = .ok 7 :=
  middleware_call_forwards ⟨[("django", .mixin ⟨some Registry.new, 5⟩)]⟩
    Registry.new (fun r => r.payload) ⟨none, 7⟩ rfl

/-- C2: `get_registry(app)` returns `app.registry` when it is set and
raises `ValueError` when it is unset; it is a pure read and leaves the
app object unchanged. -/
theorem get_registry_spec (app : DjangoSvcsAppConfigMixin) :
    (∀ reg, app.registry = some reg → get_registry app = .ok reg) ∧
    (app.registry = none → get_registry app = .error .valueError) := by
  constructor
  · intro reg h
    simp [get_registry, h]
  · intro h
    simp [get_registry, h]

theorem get_registry_spec_witness :
    get_registry ⟨some Registry.new, 0⟩ = .ok Registry.new ∧
    get_registry ⟨none, 1⟩ = .error .valueError :=
  ⟨(get_registry_spec ⟨some Registry.new, 0⟩).1 Registry.new rfl,
   (get_registry_spec ⟨none, 1⟩).2 rfl⟩

/-- C3 counterexample: `overwrite_factory` does more than forward to
`Registry.register_factory`: it also closes the stashed container.  On a
request whose container has a non-empty instantiation cache, the result
is not the request with only the registration applied (the cache has
been emptied). -/
theorem overwrite_factory_only_registers_counterexample :
    overwrite_factory ⟨some ⟨Registry.new, [(0, 0)]⟩, 0⟩ 1 2 true none none ≠
      .ok ⟨some ⟨Registry.new.register_factory 1 2 true none none, [(0, 0)]⟩, 0⟩ := by
  simp [overwrite_factory, svcs_from, Container.close]

/-- C3 (amended): `overwrite_factory(request, svc_type, factory, enter,
ping, on_registry_close)` forwards its arguments verbatim to
`Registry.register_factory` on the registry of the container stashed on
the request, and then closes that container, resetting its
instantiation cache; it has no other observable effect on the registry
or the request. -/
theorem overwrite_factory_spec (request : HttpRequest) (c : Container)
    (t f : Nat) (e : Bool) (p orc : Option Nat)
    (h : request.svcs_container = some c) :
    overwrite_factory request t f e p orc =
      .ok { request with
            svcs_container := some ⟨c.registry.register_factory t f e p orc, []⟩ } := by
  simp [overwrite_factory, svcs_from, h, Container.close]

theorem overwrite_factory_spec_witness :
    overwrite_factory ⟨some ⟨Registry.new, [(0, 0)]⟩, 4⟩ 1 2 true none none =
      .ok ⟨some ⟨Registry.new.register_factory 1 2 true none none, []⟩, 4⟩ :=
  overwrite_factory_spec ⟨some ⟨Registry.new, [(0, 0)]⟩, 4⟩
    ⟨Registry.new, [(0, 0)]⟩ 1 2 true none none rfl

/-- C4: for every config with a registry, `register_factory` forwards
its arguments verbatim to `config.registry.register_factory` and
`register_value` forwards its arguments verbatim to
`config.registry.register_value`; the defaulted call forms use
`enter=True, ping=None, on_registry_close=None` for factories and
`enter=False, ping=None, on_registry_close=None` for values. -/
theorem register_functions_forward (config : DjangoSvcsAppConfigMixin)
    (reg : Registry) (t f v : Nat) (e : Bool) (p orc : Option Nat)
    (h : config.registry = some reg) :
    register_factory config t f e p orc =
      .ok { config with registry := some (reg.register_factory t f e p orc) } ∧
    register_value config t v e p orc =
      .ok { config with registry := some (reg.register_value t v e p orc) } ∧
    register_factory_defaults config t f =
      .ok { config with registry := some (reg.register_factory t f true none none) } ∧
    register_value_defaults config t v =
      .ok { config with registry := some (reg.register_value t v false none none) } := by
  refine ⟨?_, ?_, ?_, ?_⟩ <;>
    simp [register_factory, register_value, register_factory_defaults,
      register_value_defaults, h]

theorem register_functions_forward_witness :
    register_factory ⟨some Registry.new, 9⟩ 1 2 true none none =
      .ok ⟨some (Registry.new.register_factory 1 2 true none none), 9⟩ :=
  (register_functions_forward ⟨some Registry.new, 9⟩ Registry.new
    1 2 3 true none none rfl).1

/-- C5: `svcs_from(request)` returns the value stashed on the request
under the container key (a plain attribute read, so the request is
unmodified). -/
theorem svcs_from_spec (request : HttpRequest) (c : Container)
    (h : request.svcs_container = some c) :
    svcs_from request = .ok c := by
  simp [svcs_from, h]

theorem svcs_from_spec_witness :
    svcs_from ⟨some (Container.new Registry.new), 3⟩ =
      .ok (Container.new Registry.new) :=
  svcs_from_spec ⟨some (Container.new Registry.new), 3⟩
    (Container.new Registry.new) rfl

/-- C6: for every request carrying a stashed container and every list of
service types, `get(request, *svc_types)` returns exactly what
`Container.get(*svc_types)` returns on that request's container
(both the fetched services and the propagated error). -/
theorem get_forwards_to_container (request : HttpRequest) (c : Container)
    (ts : List Nat) (h : request.svcs_container = some c) :
    (∀ vs c', c.get ts = .ok (vs, c') →
        get request ts = .ok (vs, { request with svcs_container := some c' })) ∧
    (∀ err, c.get ts = .error err → get request ts = .error err) := by
  constructor
  · intro vs c' hget
    simp [get, svcs_from, h, hget]
  · intro err hget
    simp [get, svcs_from, h, hget]

theorem get_forwards_to_container_witness :
    get ⟨some (Container.new (Registry.new.register_value 1 42 false none none)), 3⟩ [1] =
      .ok ([42], ⟨some ⟨Registry.new.register_value 1 42 false none none, [(1, 42)]⟩, 3⟩) :=
  (get_forwards_to_container
    ⟨some (Container.new (Registry.new.register_value 1 42 false none none)), 3⟩
    (Container.new (Registry.new.register_value 1 42 false none none)) [1] rfl).1
    [42] ⟨Registry.new.register_value 1 42 false none none, [(1, 42)]⟩ rfl

/-- C7: round-trip of stash and fetch: for every request entering
`SvcsMiddleware.__call__`, during the next-handler call `svcs_from`
returns the very container the middleware constructed — one fresh
container (empty cache) per request, overwriting any previously
stashed one. -/
theorem middleware_stash_roundtrip (env : AppsEnv) (reg : Registry)
    (request : HttpRequest)
    (h : SvcsMiddleware._get_registry env = .ok reg) :
    SvcsMiddleware.call env (fun r => svcs_from r) request =
      .ok (.ok (Container.new reg)) ∧
    (Container.new reg).cache = [] := by
  constructor
  · simp [SvcsMiddleware.call, h, svcs_from]
  · rfl

theorem middleware_stash_roundtrip_witness :
    SvcsMiddleware.call ⟨[("django", .mixin ⟨some Registry.new, 5⟩)]⟩
        (fun r => svcs_from r) ⟨some ⟨Registry.new, [(9, 9)]⟩, 2⟩ =
      .ok (.ok (Container.new Registry.new)) :=
  (middleware_stash_roundtrip ⟨[("django", .mixin ⟨some Registry.new, 5⟩)]⟩
    Registry.new ⟨some ⟨Registry.new, [(9, 9)]⟩, 2⟩ rfl).1

/-- C8: `DjangoSvcsAppConfigMixin.ready()` is idempotent: on a config
with no registry it installs a fresh `Registry`, on a config whose
registry is already set it changes nothing, and running it twice equals
running it once. -/
theorem ready_idempotent (app : DjangoSvcsAppConfigMixin) :
    (app.registry = none →
        app.ready = { app with registry := some Registry.new }) ∧
    (∀ r, app.registry = some r → app.ready = app) ∧
    app.ready.ready = app.ready := by
  refine ⟨?_, ?_, ?_⟩
  · intro h
    simp [DjangoSvcsAppConfigMixin.ready, h]
  · intro r h
    simp [DjangoSvcsAppConfigMixin.ready, h]
  · cases h : app.registry <;>
      simp [DjangoSvcsAppConfigMixin.ready, h]

theorem ready_idempotent_witness :
    DjangoSvcsAppConfigMixin.ready ⟨none, 6⟩ = ⟨some Registry.new, 6⟩ ∧
    DjangoSvcsAppConfigMixin.ready (DjangoSvcsAppConfigMixin.ready ⟨none, 6⟩) =
      DjangoSvcsAppConfigMixin.ready ⟨none, 6⟩ :=
  ⟨(ready_idempotent ⟨none, 6⟩).1 rfl, (ready_idempotent ⟨none, 6⟩).2.2⟩

/-- Mutating the registry object with identity *rid* changes what every
reference to that identity dereferences to (the cell exists when a
lookup succeeded before the update). -/
theorem heapFind_heapSet_self (cells : List (Nat × Registry)) (rid : Nat)
    (reg r' : Registry) (h : heapFind cells rid = some reg) :
    heapFind (heapSet cells rid r') rid = some r' := by
  induction cells with
  | nil => simp [heapFind] at h
  | cons hd tl ih =>
    obtain ⟨k, v⟩ := hd
    by_cases hk : k = rid
    · simp [heapFind, heapSet, hk]
    · simp [heapFind, heapSet, hk] at h ⊢
      exact ih h

/-- C9 counterexample: the middleware stashes
`Container(self._get_registry())`, and `_get_registry` returns
`app.registry` itself, so the stashed container references the app
config's `Registry` object (here: identity `0`).  Running
`overwrite_factory` then changes that very object — the app config's
registry — refuting "registered on that container's registry, not on
the app config's registry". -/
theorem overwrite_factory_aliasing_counterexample :
    middleware_stashRef ⟨some 0, 1⟩ ⟨none, 7⟩ = .ok ⟨some ⟨0, []⟩, 7⟩ ∧
    overwrite_factoryRef ⟨[(0, Registry.new)]⟩ ⟨some ⟨0, []⟩, 7⟩ 1 2 true none none =
      .ok (⟨[(0, Registry.new.register_factory 1 2 true none none)]⟩,
           ⟨some ⟨0, []⟩, 7⟩) ∧
    ¬ (RegistryHeap.lookup ⟨[(0, Registry.new.register_factory 1 2 true none none)]⟩ 0 =
        RegistryHeap.lookup ⟨[(0, Registry.new)]⟩ 0) :=
  ⟨rfl, rfl, by decide⟩

/-- C9 (amended): after `overwrite_factory(request, ...)` returns, the
container stashed on the request has been closed (its instantiation
cache reset) and the factory was registered on the registry object the
container references; any reference to that same object — in the
middleware flow, the app config's `registry` attribute — now
dereferences to the registry carrying the registration. -/
theorem overwrite_factory_effects_ref (heap : RegistryHeap)
    (request : HttpRequestRef) (container : ContainerRef) (reg : Registry)
    (t f : Nat) (e : Bool) (p orc : Option Nat)
    (h : request.svcs_container = some container)
    (hreg : heap.lookup container.registry_ref = some reg) :
    overwrite_factoryRef heap request t f e p orc =
      .ok (heap.update container.registry_ref (reg.register_factory t f e p orc),
           { request with svcs_container := some { container with cache := [] } }) ∧
    (heap.update container.registry_ref (reg.register_factory t f e p orc)).lookup
        container.registry_ref = some (reg.register_factory t f e p orc) := by
  constructor
  · simp [overwrite_factoryRef, h, hreg]
  · exact heapFind_heapSet_self heap.cells container.registry_ref reg
      (reg.register_factory t f e p orc) hreg

theorem overwrite_factory_effects_ref_witness :
    overwrite_factoryRef ⟨[(0, Registry.new)]⟩ ⟨some ⟨0, [(3, 3)]⟩, 8⟩
        1 2 true none none =
      .ok (⟨[(0, Registry.new.register_factory 1 2 true none none)]⟩,
           ⟨some ⟨0, []⟩, 8⟩) ∧
    RegistryHeap.lookup ⟨[(0, Registry.new.register_factory 1 2 true none none)]⟩ 0 =
      some (Registry.new.register_factory 1 2 true none none) :=
  overwrite_factory_effects_ref ⟨[(0, Registry.new)]⟩ ⟨some ⟨0, [(3, 3)]⟩, 8⟩
    ⟨0, [(3, 3)]⟩ Registry.new 1 2 true none none rfl rfl

/-- C10: `SvcsMiddleware._get_registry` raises `TypeError` when the app
config resolved under the label `"django"` is not a
`DjangoSvcsAppConfigMixin`, raises `ValueError` when that config's
registry is unset, and otherwise returns that config's registry; it is a
pure lookup that creates and modifies no registry. -/
theorem middleware_get_registry_cases (env : AppsEnv) (app : DjangoAppConfig)
    (h : env.get_app_config "django" = .ok app) :
    (∀ q, app = .plain q →
        SvcsMiddleware._get_registry env = .error .typeError) ∧
    (∀ a, app = .mixin a → a.registry = none →
        SvcsMiddleware._get_registry env = .error .valueError) ∧
    (∀ a reg, app = .mixin a → a.registry = some reg →
        SvcsMiddleware._get_registry env = .ok reg) := by
  refine ⟨?_, ?_, ?_⟩
  · intro q hq
    subst hq
    simp [SvcsMiddleware._get_registry, h, DjangoAppConfig.truthy]
  · intro a ha hr
    subst ha
    simp [SvcsMiddleware._get_registry, h, DjangoAppConfig.truthy,
      get_registry, hr]
  · intro a reg ha hr
    subst ha
    simp [SvcsMiddleware._get_registry, h, DjangoAppConfig.truthy,
      get_registry, hr]

theorem middleware_get_registry_cases_witness :
    SvcsMiddleware._get_registry ⟨[("django", .plain 0)]⟩ =
      .error .typeError ∧
    SvcsMiddleware._get_registry ⟨[("django", .mixin ⟨none, 1⟩)]⟩ =
      .error .valueError ∧
    SvcsMiddleware._get_registry ⟨[("django", .mixin ⟨some Registry.new, 2⟩)]⟩ =
      .ok Registry.new :=
  ⟨(middleware_get_registry_cases ⟨[("django", .plain 0)]⟩ (.plain 0) rfl).1
      0 rfl,
   (middleware_get_registry_cases ⟨[("django", .mixin ⟨none, 1⟩)]⟩
      (.mixin ⟨none, 1⟩) rfl).2.1 ⟨none, 1⟩ rfl rfl,
   (middleware_get_registry_cases ⟨[("django", .mixin ⟨some Registry.new, 2⟩)]⟩
      (.mixin ⟨some Registry.new, 2⟩) rfl).2.2 ⟨some Registry.new, 2⟩
      Registry.new rfl rfl⟩

end Svcs
